import Mathlib

/-!
# Verification of the AutoKPI core: schema inference and the KPI rule engine

This development gives a shallow embedding of the two core components of the
AutoKPI repository — the schema inferencer (`src/autokpi/schema_inference.py`)
and the KPI rule engine (`src/autokpi/kpi_rules.py` together with
`src/autokpi/creative_kpis.py`) — and proves properties of the embedding.

Modelling conventions:
* pandas cell values are modelled by `Value` wrapped in `Option` (a `none`
  cell plays the role of NaN / None / NaT);
* pandas floating point arithmetic is modelled by exact rational arithmetic
  (`ℚ`); real-valued comparisons that the source makes through `sqrt`
  (standard deviation, skewness) are translated to equivalent square-free
  rational comparisons, with the derivation documented at the definition;
* Python exceptions (KeyError on a missing column, ZeroDivisionError) are
  modelled by `Except String`;
* `str.title()`, regex matching of the concrete pattern lists, and ISO-format
  date parsing are modelled directly over ASCII strings; the `pd.to_datetime`
  conversion of integer/float cells (epoch interpretation) is modelled as a
  successful parse to a placeholder date, since only success/failure of such
  parses is ever observable in the properties below;
* free-text `description` strings and the numeric payload fields of a KPI
  record embed `%`-formatted floating point numbers and are therefore not
  carried in the embedded `KPI` structure; the `name`, category, column and
  grouping fields — the ones the engine's logic branches on — are all kept.
-/

/-! ## String helpers (Python `str` operations used by the source) -/

/-- Character-level test used to model regex word characters (`[a-zA-Z0-9_]`). -/
def isWordChar (c : Char) : Bool :=
  c.isAlpha || c.isDigit || c == '_'

/-- Lower-casing of a string, modelling Python `str.lower()` on ASCII input
(written through the character list so that it evaluates by kernel
reduction). -/
def pyLower (s : String) : String :=
  ⟨s.data.map Char.toLower⟩

/-- Does the character list start with the given prefix list? -/
def charsStart : List Char → List Char → Bool
  | [], _ => true
  | _ :: _, [] => false
  | a :: as, b :: bs => a == b && charsStart as bs

/-- Does `hay` contain `needle` as a contiguous run (models `re.search` of a
plain literal pattern, i.e. a substring test)? -/
def charsHave (needle : List Char) : List Char → Bool
  | [] => charsStart needle []
  | b :: bs => charsStart needle (b :: bs) || charsHave needle bs

/-- Substring test on strings. -/
def strHas (hay needle : String) : Bool :=
  charsHave needle.data hay.data

/-- Suffix test on strings (models an anchored `pattern$` regex). -/
def strEnds (hay needle : String) : Bool :=
  charsStart needle.data.reverse hay.data.reverse

/-- Occurrence of `id` with regex word boundaries on both sides
(models the `\bid\b` pattern).  The boolean argument records whether the
character immediately before the current position is a word character. -/
def hasWordIdAux : Bool → List Char → Bool
  | _, [] => false
  | prevWord, c :: cs =>
    (c == 'i' && !prevWord &&
      (match cs with
       | 'd' :: rest =>
         (match rest with
          | [] => true
          | r :: _ => !isWordChar r)
       | _ => false))
    || hasWordIdAux (isWordChar c) cs

/-- Word-bounded occurrence of `id` in a string. -/
def hasWordId (s : String) : Bool :=
  hasWordIdAux false s.data

/-- Python `str.title()` on ASCII text: an alphabetic character is upper-cased
when the previous character is not alphabetic and lower-cased otherwise. -/
def pyTitleAux : Bool → List Char → List Char
  | _, [] => []
  | prevAlpha, c :: cs =>
    (if c.isAlpha then (if prevAlpha then c.toLower else c.toUpper) else c)
      :: pyTitleAux c.isAlpha cs

/-- The `col.replace("_", " ").title()` idiom used to build every KPI name
(replacing the one-character pattern `_` is a character map). -/
def titleize (s : String) : String :=
  ⟨pyTitleAux false (s.data.map (fun c => if c == '_' then ' ' else c))⟩

/-! ## Column name patterns (`ID_PATTERNS`, `DATETIME_PATTERNS`,
`CATEGORICAL_PATTERNS` and `detect_column_pattern` from the source).
`detect_column_pattern` lower-cases the name and runs `re.search` per pattern;
each concrete pattern is either a literal substring, an anchored suffix, the
exact-match `^id$`, or the word-bounded `\bid\b`, and is translated
accordingly. -/

/-- Match of the identifier pattern list `ID_PATTERNS`. -/
def idPatternMatch (name : String) : Bool :=
  let l := pyLower name
  hasWordId l || l == "id" || strEnds l "_id" || strHas l "id_" ||
  strEnds l "key" || strEnds l "pk" || strHas l "primary_key" ||
  strHas l "uuid" || strHas l "serial" || strHas l "index"

/-- Match of the datetime pattern list `DATETIME_PATTERNS`. -/
def dtPatternMatch (name : String) : Bool :=
  let l := pyLower name
  strHas l "date" || strHas l "time" || strHas l "timestamp" ||
  strHas l "created" || strHas l "updated" || strHas l "modified" ||
  strHas l "when" || strEnds l "dt" || strEnds l "_at" ||
  strHas l "day" || strHas l "month" || strHas l "year"

/-- Match of the categorical pattern list `CATEGORICAL_PATTERNS`. -/
def catPatternMatch (name : String) : Bool :=
  let l := pyLower name
  strHas l "category" || strHas l "type" || strHas l "status" ||
  strHas l "state" || strHas l "country" || strHas l "region" ||
  strHas l "city" || strHas l "segment" || strHas l "group" ||
  strHas l "class" || strHas l "kind" || strHas l "label" ||
  strHas l "tag" || strHas l "flag"

/-! ## Data model: cells, columns, dataframes -/

/-- Calendar date (pandas timestamps are modelled at day resolution, which is
all the source ever inspects: `.dt.year`, `.dt.month`, `.dt.date`,
`.dt.dayofweek`). -/
structure Date where
  y : Nat
  m : Nat
  d : Nat
deriving DecidableEq

/-- A non-null pandas cell value. -/
inductive Value where
  | int (n : Int)
  | float (q : ℚ)
  | bool (b : Bool)
  | str (s : String)
  | date (dt : Date)
deriving DecidableEq

/-- pandas storage dtype of a column (all integer widths collapse to `int`). -/
inductive DType where
  | int
  | float
  | bool
  | datetime
  | object
deriving DecidableEq

/-- A dataframe column: a name, a storage dtype and a cell sequence
(`none` models a null). -/
structure Col where
  name : String
  dtype : DType
  cells : List (Option Value)
deriving DecidableEq

/-- A dataframe is its ordered column list. -/
structure DataFrame where
  cols : List Col
deriving DecidableEq

/-- Row count `len(df)`; in a well-formed dataframe every column has this
length. -/
def DataFrame.rowCount (df : DataFrame) : Nat :=
  match df.cols with
  | [] => 0
  | c :: _ => c.cells.length

/-- Column lookup by name, modelling `df[name]`; `none` means Python would
raise a KeyError. -/
def lookupCol (df : DataFrame) (name : String) : Option Col :=
  df.cols.find? (fun c => c.name == name)

/-- Consistency of a cell with a storage dtype: an integer column holds
integers, a float column holds numbers, a boolean column booleans, a
datetime column dates, and an object column anything. -/
def cellFits (dt : DType) (v : Value) : Bool :=
  match dt, v with
  | .int, .int _ => true
  | .float, .int _ => true
  | .float, .float _ => true
  | .bool, .bool _ => true
  | .datetime, .date _ => true
  | .object, _ => true
  | _, _ => false

/-- A column is well formed when its cells fit its dtype (every column of a
real pandas dataframe satisfies this). -/
def Col.wf (c : Col) : Bool :=
  c.cells.all (fun o => match o with | none => true | some v => cellFits c.dtype v)

/-- Numeric view of a cell, as used by `sum`, `mean`, `quantile`:
booleans coerce to 0/1, strings and dates are not numeric. -/
def asNum : Value → Option ℚ
  | .int n => some (n : ℚ)
  | .float q => some q
  | .bool b => some (if b then 1 else 0)
  | .str _ => none
  | .date _ => none

/-- The non-null numeric values of a cell list (`dropna` on a numeric
column). -/
def numsOf (cells : List (Option Value)) : List ℚ :=
  cells.filterMap (fun o => o.bind asNum)

/-- Sum of a cell list, modelling `Series.sum()` (skips nulls, empty sum is
zero). -/
def sumCells (cells : List (Option Value)) : ℚ :=
  (numsOf cells).sum

/-- Count of distinct non-null values, modelling `Series.nunique()`. -/
def nuniqueCol (c : Col) : Nat :=
  (c.cells.filterMap id).dedup.length

/-! ## Datetime parsing (model of `pd.to_datetime`) -/

/-- Split a character list at a separator character. -/
def splitChar (sep : Char) : List Char → List (List Char)
  | [] => [[]]
  | c :: cs =>
    match splitChar sep cs with
    | [] => [[]]
    | h :: t => if c == sep then [] :: h :: t else (c :: h) :: t

/-- Digits-only character run to a natural number. -/
def charsToNat (l : List Char) : Option Nat :=
  if l.length > 0 && l.all Char.isDigit then
    some (l.foldl (fun n c => n * 10 + (c.toNat - 48)) 0)
  else none

/-- ISO-format date parser `YYYY-MM-DD`, the model of `pd.to_datetime` on a
string cell.  Strings outside this format (such as `"apple"`) fail. -/
def parseDateString (s : String) : Option Date :=
  match splitChar '-' s.data with
  | [ys, ms, ds] =>
    match charsToNat ys, charsToNat ms, charsToNat ds with
    | some y, some m, some d =>
      if 1 ≤ m && m ≤ 12 && 1 ≤ d && d ≤ 31 then some ⟨y, m, d⟩ else none
    | _, _, _ => none
  | _ => none

/-- Model of `pd.to_datetime` on one non-null cell: dates pass through,
strings go through the ISO parser, integers and floats convert successfully
(pandas reads them as epoch offsets; the resulting timestamp is modelled by a
placeholder date since no property below inspects it), booleans raise. -/
def parseValue : Value → Option Date
  | .date dt => some dt
  | .str s => parseDateString s
  | .int _ => some ⟨1970, 1, 1⟩
  | .float _ => some ⟨1970, 1, 1⟩
  | .bool _ => none

/-- The parse sample `df[column].dropna().head(100)`. -/
def sampleCells (c : Col) : List Value :=
  (c.cells.filterMap id).take 100

/-- Does `pd.to_datetime(sample, errors='raise')` succeed?  It succeeds
exactly when every sampled value converts; on an empty sample it succeeds
vacuously. -/
def sampleParses (c : Col) : Bool :=
  (sampleCells c).all (fun v => (parseValue v).isSome)

/-! ## Schema inference (`infer_column_type` and `infer_schema`) -/

/-- The five column roles. -/
inductive ColType where
  | id
  | datetime
  | categorical
  | numeric
  | text
deriving DecidableEq

/-- Average rendered-string length `df[column].astype(str).str.len().mean()`.
A null cell renders as `nan` (3 characters); the rendered length of a float
cell is a model placeholder (Python float repr is not modelled), and no
property depends on it.  The mean of an empty column is NaN, modelled as
`none`. -/
def avgStrLen (c : Col) : Option ℚ :=
  match c.cells.length with
  | 0 => none
  | n =>
    let lens := c.cells.map (fun o =>
      match o with
      | none => 3
      | some (.str s) => s.length
      | some (.int k) => (toString k).length
      | some (.bool b) => if b then 4 else 5
      | some (.float _) => 3
      | some (.date _) => 19)
    some ((lens.map (fun k => (k : ℚ))).sum / (n : ℚ))

/-- Shallow embedding of `infer_column_type(df, column)`
(`schema_inference.py`, lines 60–140).  The `Except` error marks the
ZeroDivisionError that the source raises in the numeric surrogate-key check
when the dataframe has zero rows (the `nunique()/len(df)` quotient on line 93
carries no `max(len(df), 1)` guard). -/
def inferColumnType (df : DataFrame) (c : Col) : Except String ColType :=
  if idPatternMatch c.name then .ok .id
  else if dtPatternMatch c.name && sampleParses c then .ok .datetime
  else
    match c.dtype with
    | .int =>
      -- is_numeric_dtype holds; the dtype is an integer type, so the
      -- surrogate-key check divides by the raw row count.
      if df.rowCount = 0 then .error "ZeroDivisionError"
      else if (0.95 : ℚ) < (nuniqueCol c : ℚ) / (df.rowCount : ℚ) then .ok .id
      else .ok .numeric
    | .float => .ok .numeric
    | .bool =>
      -- pandas treats bool storage as numeric (is_numeric_dtype is true), and
      -- bool is not in the integer-dtype list, so the branch returns numeric;
      -- the explicit bool branch later in the source is unreachable.
      .ok .numeric
    | .datetime => .ok .datetime
    | .object =>
      if (sampleCells c).length > 0 && sampleParses c then .ok .datetime
      else
        let ur : ℚ := (nuniqueCol c : ℚ) / (max df.rowCount 1 : ℚ)
        let avg := avgStrLen c
        let lowCard := decide (ur < 0.5) &&
          (match avg with | some a => decide (a < 50) | none => false)
        if lowCard && catPatternMatch c.name then .ok .categorical
        else if lowCard &&
            decide ((nuniqueCol c : ℚ) < min 50 ((df.rowCount : ℚ) * 0.1)) then
          .ok .categorical
        else if (match avg with | some a => decide (100 < a) | none => false) then
          .ok .text
        else if ur < 0.3 then .ok .categorical
        else .ok .text

/-- The inferred schema: the five role lists plus the raw column list. -/
structure Schema where
  idColumns : List String := []
  datetimeColumns : List String := []
  categoricalColumns : List String := []
  numericColumns : List String := []
  textColumns : List String := []
  rawColumns : List String := []
deriving DecidableEq

/-- Insert a classified column name into the schema record, mirroring the
dispatch in `infer_schema` (the unknown-type fallback to categorical is
unreachable since `ColType` is exactly the result type). -/
def Schema.insert (s : Schema) (t : ColType) (name : String) : Schema :=
  match t with
  | .id => { s with idColumns := name :: s.idColumns }
  | .datetime => { s with datetimeColumns := name :: s.datetimeColumns }
  | .categorical => { s with categoricalColumns := name :: s.categoricalColumns }
  | .numeric => { s with numericColumns := name :: s.numericColumns }
  | .text => { s with textColumns := name :: s.textColumns }

/-- Classification loop of `infer_schema`: columns are processed in order and
appended to their role list; processing the head first and consing onto the
recursive result yields exactly the source's append order. -/
def inferSchemaAux (df : DataFrame) : List Col → Except String Schema
  | [] => .ok {}
  | c :: cs => do
    let t ← inferColumnType df c
    let s ← inferSchemaAux df cs
    pure (s.insert t c.name)

/-- Shallow embedding of `infer_schema(df)` (`schema_inference.py`,
lines 143–187). -/
def inferSchema (df : DataFrame) : Except String Schema := do
  let s ← inferSchemaAux df df.cols
  pure { s with rawColumns := df.cols.map Col.name }

/-- Concatenation of the five role lists of a schema. -/
def Schema.roleConcat (s : Schema) : List String :=
  s.idColumns ++ s.datetimeColumns ++ s.categoricalColumns ++
    s.numericColumns ++ s.textColumns

/-! ## KPI descriptors (`kpi_rules.py`) -/

/-- A KPI descriptor.  The structural fields the engine branches on are kept
verbatim; the `description` / `logic` strings and per-category numeric
payloads embed formatted floating point numbers and are not modelled. -/
structure KPI where
  name : String
  category : String
  subcategory : String
  difficulty : String
  sqlFunction : String
  columnsUsed : List String
  column : Option String
  groupBy : Option String := none
  groupByFunction : Option String := none
  denominator : Option String := none
  percentile : Option Nat := none
deriving DecidableEq

/-- Shallow embedding of `generate_aggregation_kpis` (`kpi_rules.py`,
lines 10–104). -/
def generateAggregationKpis (schema : Schema) (df : DataFrame) : List KPI :=
  (schema.numericColumns.flatMap (fun col =>
    [ { name := "Total " ++ titleize col, category := "aggregation",
        subcategory := "sum", difficulty := "easy", sqlFunction := "SUM",
        columnsUsed := [col], column := some col },
      { name := "Average " ++ titleize col, category := "aggregation",
        subcategory := "average", difficulty := "easy", sqlFunction := "AVG",
        columnsUsed := [col], column := some col },
      { name := "Minimum " ++ titleize col, category := "aggregation",
        subcategory := "min", difficulty := "easy", sqlFunction := "MIN",
        columnsUsed := [col], column := some col },
      { name := "Maximum " ++ titleize col, category := "aggregation",
        subcategory := "max", difficulty := "easy", sqlFunction := "MAX",
        columnsUsed := [col], column := some col } ]))
  ++ (schema.idColumns.map (fun col =>
    { name := "Total Count of " ++ titleize col, category := "aggregation",
      subcategory := "count_distinct", difficulty := "easy",
      sqlFunction := "COUNT_DISTINCT", columnsUsed := [col], column := some col }))
  ++ (if df.rowCount > 0 then
    [ { name := "Total Records", category := "aggregation",
        subcategory := "count", difficulty := "easy", sqlFunction := "COUNT",
        columnsUsed := [], column := none } ]
    else [])

/-! ### Time-series rule family -/

/-- Inferred time granularity for the leading datetime column. -/
inductive Gran where
  | year
  | month
  | day
deriving DecidableEq

/-- The coerced date sample
`pd.to_datetime(df[col].dropna().head(100), errors='coerce').dropna()`. -/
def sampleDatesOf (c : Col) : List Date :=
  ((c.cells.filterMap id).take 100).filterMap parseValue

/-- Granularity inference of `generate_time_series_kpis` (`kpi_rules.py`,
lines 130–159): a name containing `year`, or at most two distinct years and
at most two distinct dates in the sample, gives year granularity; otherwise
fewer distinct dates than 10% of the sample gives month; otherwise day.  A
missing column or an empty parsed sample leaves the default `day`.  (The
`except` fallback of the source is unreachable in the model because the
coercing parse never raises.) -/
def inferTimeGranularity (df : DataFrame) (dcol : String) : Gran :=
  let isYearColumn := strHas (pyLower dcol) "year"
  match lookupCol df dcol with
  | none => .day
  | some c =>
    let dates := sampleDatesOf c
    if dates.length > 0 then
      let uniqueYears := (dates.map Date.y).dedup.length
      let uniqueDays := dates.dedup.length
      if isYearColumn || (uniqueYears ≤ 2 && uniqueDays ≤ 2) then .year
      else if (uniqueDays : ℚ) < (dates.length : ℚ) * 0.1 then .month
      else .day
    else .day

/-- Per-numeric-column descriptors of the time-series family: year
granularity emits per-year then per-month, month granularity per-month then
per-year, day granularity per-day then per-month. -/
def timeSeriesNumKpis (dcol : String) (g : Gran) (num : String) : List KPI :=
  let perYear : KPI :=
    { name := titleize num ++ " per Year", category := "time_series",
      subcategory := "yearly", difficulty := "medium", sqlFunction := "SUM",
      columnsUsed := [num, dcol], column := some num, groupBy := some dcol,
      groupByFunction := some "YEAR" }
  let perMonth : KPI :=
    { name := titleize num ++ " per Month", category := "time_series",
      subcategory := "monthly", difficulty := "medium", sqlFunction := "SUM",
      columnsUsed := [num, dcol], column := some num, groupBy := some dcol,
      groupByFunction := some "YEAR_MONTH" }
  let perDay : KPI :=
    { name := titleize num ++ " per Day", category := "time_series",
      subcategory := "daily", difficulty := "medium", sqlFunction := "SUM",
      columnsUsed := [num, dcol], column := some num, groupBy := some dcol,
      groupByFunction := some "DATE" }
  match g with
  | .year => [perYear, perMonth]
  | .month => [perMonth, perYear]
  | .day => [perDay, perMonth]

/-- Per-identifier-column descriptor of the time-series family (only the
first identifier column is used). -/
def timeSeriesIdKpi (dcol : String) (g : Gran) (idc : String) : KPI :=
  match g with
  | .year =>
    { name := "New " ++ titleize idc ++ " per Year", category := "time_series",
      subcategory := "yearly", difficulty := "medium",
      sqlFunction := "COUNT_DISTINCT", columnsUsed := [idc, dcol],
      column := some idc, groupBy := some dcol, groupByFunction := some "YEAR" }
  | .month =>
    { name := "New " ++ titleize idc ++ " per Month", category := "time_series",
      subcategory := "monthly", difficulty := "medium",
      sqlFunction := "COUNT_DISTINCT", columnsUsed := [idc, dcol],
      column := some idc, groupBy := some dcol,
      groupByFunction := some "YEAR_MONTH" }
  | .day =>
    { name := "New " ++ titleize idc ++ " per Day", category := "time_series",
      subcategory := "daily", difficulty := "medium",
      sqlFunction := "COUNT_DISTINCT", columnsUsed := [idc, dcol],
      column := some idc, groupBy := some dcol, groupByFunction := some "DATE" }

/-- Shallow embedding of `generate_time_series_kpis` (`kpi_rules.py`,
lines 107–297). -/
def generateTimeSeriesKpis (schema : Schema) (df : DataFrame) : List KPI :=
  match schema.datetimeColumns with
  | [] => []
  | dcol :: _ =>
    let g := inferTimeGranularity df dcol
    (schema.numericColumns.flatMap (timeSeriesNumKpis dcol g))
      ++ ((schema.idColumns.take 1).map (timeSeriesIdKpi dcol g))

/-- Shallow embedding of `generate_category_breakdown_kpis` (`kpi_rules.py`,
lines 300–362). -/
def generateCategoryBreakdownKpis (schema : Schema) (_df : DataFrame) : List KPI :=
  schema.categoricalColumns.flatMap (fun cat =>
    (schema.numericColumns.flatMap (fun num =>
      [ { name := titleize num ++ " by " ++ titleize cat,
          category := "category_breakdown", subcategory := "sum_by_category",
          difficulty := "medium", sqlFunction := "SUM",
          columnsUsed := [num, cat], column := some num, groupBy := some cat },
        { name := "Average " ++ titleize num ++ " by " ++ titleize cat,
          category := "category_breakdown", subcategory := "avg_by_category",
          difficulty := "medium", sqlFunction := "AVG",
          columnsUsed := [num, cat], column := some num, groupBy := some cat } ]))
    ++ [ { name := "Count by " ++ titleize cat,
           category := "category_breakdown", subcategory := "count_by_category",
           difficulty := "easy", sqlFunction := "COUNT",
           columnsUsed := [cat], column := none, groupBy := some cat } ])

/-! ### Conversion rule family -/

/-- Status-like column filter of `generate_conversion_kpis`: a plain
substring test of five status words on the lower-cased name. -/
def isStatusCol (col : String) : Bool :=
  let l := pyLower col
  strHas l "status" || strHas l "state" || strHas l "stage" ||
  strHas l "phase" || strHas l "type"

/-- Column lookup that raises the KeyError of `df[name]` on a missing
column. -/
def getColE (df : DataFrame) (name : String) : Except String Col :=
  match lookupCol df name with
  | some c => .ok c
  | none => .error "KeyError"

/-- Per-status-column descriptors of `generate_conversion_kpis`: a
distribution descriptor always, plus a binary rate descriptor when the
column has exactly two distinct non-null values. -/
def conversionColKpis (df : DataFrame) (col : String) : Except String (List KPI) := do
  let c ← getColE df col
  let dist : KPI :=
    { name := titleize col ++ " Distribution", category := "conversion",
      subcategory := "distribution", difficulty := "easy",
      sqlFunction := "COUNT", columnsUsed := [col], column := none,
      groupBy := some col }
  let vals := (c.cells.filterMap id).dedup
  if nuniqueCol c = 2 && vals.length = 2 then
    pure [dist,
      { name := titleize col ++ " Rate", category := "conversion",
        subcategory := "rate", difficulty := "medium", sqlFunction := "RATE",
        columnsUsed := [col], column := some col } ]
  else
    pure [dist]

/-- Sequential processing of the status columns with Python exception
propagation. -/
def conversionAux (df : DataFrame) : List String → Except String (List KPI)
  | [] => .ok []
  | col :: rest => do
    let ks ← conversionColKpis df col
    let t ← conversionAux df rest
    pure (ks ++ t)

/-- Shallow embedding of `generate_conversion_kpis` (`kpi_rules.py`,
lines 365–417). -/
def generateConversionKpis (schema : Schema) (df : DataFrame) : Except String (List KPI) :=
  conversionAux df (schema.categoricalColumns.filter isStatusCol)

/-! ### Statistical / ratio / growth rule family -/

/-- Evaluation of `df[name].sum()` with the KeyError of a missing column. -/
def colSumE (df : DataFrame) (name : String) : Except String ℚ := do
  let c ← getColE df name
  pure (sumCells c.cells)

/-- Total version of the column sum (zero for a missing column), used to
state properties. -/
def colSum (df : DataFrame) (name : String) : ℚ :=
  match lookupCol df name with
  | some c => sumCells c.cells
  | none => 0

/-- The ratio descriptor of the second column to the first. -/
def ratioKpi (c1 c2 : String) : KPI :=
  { name := titleize c2 ++ " to " ++ titleize c1 ++ " Ratio",
    category := "ratio", subcategory := "numeric_ratio",
    difficulty := "medium", sqlFunction := "RATIO",
    columnsUsed := [c1, c2], column := some c2, denominator := some c1 }

/-- Inner loop `for col2 in numeric_cols[i+1:]`: the denominator sum is
(re)evaluated inside the loop, so a missing `c1` raises only when at least
one later column exists. -/
def ratioInner (df : DataFrame) (c1 : String) : List String → Except String (List KPI)
  | [] => .ok []
  | c2 :: rest => do
    let s ← colSumE df c1
    let hd := if s ≠ 0 then [ratioKpi c1 c2] else []
    let t ← ratioInner df c1 rest
    pure (hd ++ t)

/-- Outer loop `for i, col1 in enumerate(numeric_cols)`. -/
def ratioAux (df : DataFrame) : List String → Except String (List KPI)
  | [] => .ok []
  | c1 :: rest => do
    let hd ← ratioInner df c1 rest
    let t ← ratioAux df rest
    pure (hd ++ t)

/-- Percentile descriptors per numeric column: median, then the 25th and
75th percentiles. -/
def percentileKpis (col : String) : List KPI :=
  [ { name := "Median " ++ titleize col, category := "statistical",
      subcategory := "percentile", difficulty := "medium",
      sqlFunction := "MEDIAN", columnsUsed := [col], column := some col,
      percentile := some 50 },
    { name := "25th Percentile of " ++ titleize col, category := "statistical",
      subcategory := "percentile", difficulty := "medium",
      sqlFunction := "PERCENTILE", columnsUsed := [col], column := some col,
      percentile := some 25 },
    { name := "75th Percentile of " ++ titleize col, category := "statistical",
      subcategory := "percentile", difficulty := "medium",
      sqlFunction := "PERCENTILE", columnsUsed := [col], column := some col,
      percentile := some 75 } ]

/-- Growth-rate descriptor keyed to the first datetime column. -/
def growthKpi (dcol num : String) : KPI :=
  { name := titleize num ++ " Growth Rate", category := "growth",
    subcategory := "pct_change", difficulty := "advanced",
    sqlFunction := "GROWTH_RATE", columnsUsed := [num, dcol],
    column := some num }

/-- Shallow embedding of `generate_advanced_kpis` (`kpi_rules.py`,
lines 420–501). -/
def generateAdvancedKpis (schema : Schema) (df : DataFrame) : Except String (List KPI) := do
  let percs := schema.numericColumns.flatMap percentileKpis
  let ratios ←
    if 2 ≤ schema.numericColumns.length then ratioAux df schema.numericColumns
    else pure []
  let growth :=
    match schema.datetimeColumns with
    | [] => []
    | dcol :: _ =>
      if schema.numericColumns.isEmpty then []
      else (schema.numericColumns.take 2).map (growthKpi dcol)
  pure (percs ++ ratios ++ growth)

/-! ## Creative rule families (`creative_kpis.py`) -/

/-- Insert into a sorted list, keeping an earlier element in front of a later
equal one (stability). -/
def insSorted (le : α → α → Bool) (x : α) : List α → List α
  | [] => [x]
  | y :: ys => if le x y then x :: y :: ys else y :: insSorted le x ys

/-- Stable insertion sort. -/
def sortedBy (le : α → α → Bool) (l : List α) : List α :=
  l.foldr (insSorted le) []

/-- Mean of a rational list, `none` for the NaN mean of an empty list. -/
def meanOpt (xs : List ℚ) : Option ℚ :=
  if xs.length = 0 then none else some (xs.sum / (xs.length : ℚ))

/-- Sample variance (pandas default `ddof=1`), `none` for the NaN result on
fewer than two points. -/
def varSample (xs : List ℚ) : Option ℚ :=
  let n := xs.length
  if n < 2 then none
  else
    let μ := xs.sum / (n : ℚ)
    some ((xs.map (fun x => (x - μ) ^ 2)).sum / ((n : ℚ) - 1))

/-- Linear-interpolation quantile, the pandas default: at fractional position
`(n-1)·q` between the sorted order statistics.  `none` models the NaN
quantile of an empty series. -/
def quantileL (xs : List ℚ) (q : ℚ) : Option ℚ :=
  let sorted := sortedBy (fun a b => decide (a ≤ b)) xs
  match sorted.length with
  | 0 => none
  | n =>
    let pos : ℚ := ((n : ℚ) - 1) * q
    let i : Nat := (⌊pos⌋).toNat
    let lo := sorted.getD i 0
    let hi := sorted.getD (i + 1) lo
    some (lo + (pos - (i : ℚ)) * (hi - lo))

/-! ### Anomaly detection (`detect_anomalies_kpis`) -/

/-- Number of z-score anomalies of a column: values more than three standard
deviations from the mean, with the population standard deviation used by
`scipy.stats.zscore`.  The test `|x-μ|/σ > 3` is translated to the
square-free `(x-μ)² > 9σ²`; a zero variance gives NaN z-scores and hence no
anomalies, and so does an empty sample. -/
def zAnomalyCount (c : Col) : Nat :=
  let xs := numsOf c.cells
  let n := xs.length
  if n = 0 then 0
  else
    let μ := xs.sum / (n : ℚ)
    let v := (xs.map (fun x => (x - μ) ^ 2)).sum / (n : ℚ)
    if v = 0 then 0
    else (xs.filter (fun x => decide (9 * v < (x - μ) ^ 2))).length

/-- Number of IQR outliers of a column: cells outside the 1.5×IQR fences
around the 25th/75th quantiles of the non-null values.  An empty value list
gives NaN quantiles and NaN fences, so no cell counts as an outlier; a null
cell never counts. -/
def iqrOutlierCount (df : DataFrame) (colName : String) : Nat :=
  match lookupCol df colName with
  | none => 0
  | some c =>
    let xs := numsOf c.cells
    match quantileL xs (1/4), quantileL xs (3/4) with
    | some q1, some q3 =>
      let iqr := q3 - q1
      (c.cells.filter (fun o =>
        match o.bind asNum with
        | some x => decide (x < q1 - 1.5 * iqr) || decide (q3 + 1.5 * iqr < x)
        | none => false)).length
    | _, _ => 0

/-- The outlier share `(outliers / len(df)) * 100` of the IQR rule.  The
outlier count is a numpy integer, so on a zero-row table the source's
division yields NaN under a suppressed RuntimeWarning rather than raising;
every comparison against NaN is false, and the zero-denominator rational
convention (`q / 0 = 0`) reproduces that non-emission exactly. -/
def iqrOutlierPct (df : DataFrame) (colName : String) : ℚ :=
  (iqrOutlierCount df colName : ℚ) / (df.rowCount : ℚ) * 100

/-- The z-score anomaly descriptor. -/
def zScoreKpi (col : String) : KPI :=
  { name := "Anomaly Rate in " ++ titleize col, category := "anomaly_detection",
    subcategory := "zscore_anomalies", difficulty := "advanced",
    sqlFunction := "ANOMALY_RATE", columnsUsed := [col], column := some col }

/-- The IQR outlier descriptor. -/
def iqrKpi (col : String) : KPI :=
  { name := "Outlier Detection in " ++ titleize col,
    category := "anomaly_detection", subcategory := "iqr_outliers",
    difficulty := "advanced", sqlFunction := "OUTLIER_DETECTION",
    columnsUsed := [col], column := some col }

/-- Anomaly descriptors of one numeric column.  The only exception this
rule can raise is the KeyError of `df[col]` on a column missing from the
table; the IQR share on a zero-row table is NaN (suppressed warning, see
`iqrOutlierPct`) and then simply fails the threshold test. -/
def anomalyColKpis (df : DataFrame) (col : String) : Except String (List KPI) := do
  let c ← getColE df col
  let xs := numsOf c.cells
  let anomalyPct : ℚ :=
    if 0 < xs.length then (zAnomalyCount c : ℚ) / (xs.length : ℚ) * 100 else 0
  let zks := if 0 < anomalyPct then [zScoreKpi col] else []
  let iks := if 5 < iqrOutlierPct df col then [iqrKpi col] else []
  pure (zks ++ iks)

/-- Loop of `detect_anomalies_kpis` over the numeric columns. -/
def detectAnomaliesAux (df : DataFrame) : List String → Except String (List KPI)
  | [] => .ok []
  | col :: rest => do
    let hd ← anomalyColKpis df col
    let t ← detectAnomaliesAux df rest
    pure (hd ++ t)

/-- Shallow embedding of `detect_anomalies_kpis` (`creative_kpis.py`,
lines 15–75). -/
def detectAnomaliesKpis (df : DataFrame) (schema : Schema) : Except String (List KPI) :=
  detectAnomaliesAux df schema.numericColumns

/-! ### Seasonality detection (`detect_seasonality_kpis`) -/

/-- Day of week of a Gregorian date with pandas numbering (Monday = 0),
via Sakamoto's method (which yields Sunday = 0). -/
def dayOfWeekMon0 (dt : Date) : Nat :=
  let t := [0, 3, 2, 5, 0, 3, 5, 1, 4, 6, 2, 4]
  let y := if dt.m < 3 then dt.y - 1 else dt.y
  let s := y + y / 4 + y / 400 + t.getD (dt.m - 1) 0 + dt.d
  let sun0 := (s - y / 100) % 7
  (sun0 + 6) % 7

/-- Group means over natural-number keys (day of week, month): one entry per
observed key in ascending key order, the group mean skipping nulls (`none`
models the NaN mean of an all-null group). -/
def groupMeansNat (pairs : List (Nat × Option ℚ)) : List (Nat × Option ℚ) :=
  let keys := sortedBy (fun a b => decide (a ≤ b)) (pairs.map Prod.fst).dedup
  keys.map (fun k =>
    (k, meanOpt ((pairs.filter (fun p => p.1 == k)).filterMap Prod.snd)))

/-- Emission test `variance > mean * factor` on a group-mean series; a NaN
variance (fewer than two non-null group means) or NaN mean makes it false. -/
def seasonalEmit (means : List (Nat × Option ℚ)) (factor : ℚ) : Bool :=
  let vals := means.filterMap Prod.snd
  match varSample vals, meanOpt vals with
  | some v, some m => decide (m * factor < v)
  | _, _ => false

/-- The weekly seasonality descriptor. -/
def weeklyKpi (dcol num : String) : KPI :=
  { name := "Weekly Pattern in " ++ titleize num,
    category := "pattern_detection", subcategory := "weekly_seasonality",
    difficulty := "advanced", sqlFunction := "WEEKLY_PATTERN",
    columnsUsed := [num, dcol], column := some num }

/-- The monthly seasonality descriptor. -/
def monthlyKpi (dcol num : String) : KPI :=
  { name := "Monthly Seasonality in " ++ titleize num,
    category := "pattern_detection", subcategory := "monthly_seasonality",
    difficulty := "advanced", sqlFunction := "MONTHLY_PATTERN",
    columnsUsed := [num, dcol], column := some num }

/-- Seasonality descriptors of one numeric column: rows with an unparseable
datetime are dropped, the remaining rows are grouped by day of week and by
month, and a descriptor is emitted per grouping whose mean variance crosses
its threshold.  (The best/worst day and month computed by the source feed
only the omitted description and payload fields.) -/
def seasonalityColKpis (df : DataFrame) (dcol : String) (parsedDt : List (Option Date))
    (num : String) : Except String (List KPI) := do
  let c ← getColE df num
  let rows : List (Date × Option ℚ) :=
    (parsedDt.zip c.cells).filterMap (fun p =>
      match p.1 with
      | some dt => some (dt, p.2.bind asNum)
      | none => none)
  let daily := groupMeansNat (rows.map (fun r => (dayOfWeekMon0 r.1, r.2)))
  let monthly := groupMeansNat (rows.map (fun r => (r.1.m, r.2)))
  let wk := if seasonalEmit daily 0.1 then [weeklyKpi dcol num] else []
  let mk := if seasonalEmit monthly 0.15 then [monthlyKpi dcol num] else []
  pure (wk ++ mk)

/-- Loop of `detect_seasonality_kpis` over the first two numeric columns. -/
def seasonalityAux (df : DataFrame) (dcol : String) (parsedDt : List (Option Date)) :
    List String → Except String (List KPI)
  | [] => .ok []
  | num :: rest => do
    let hd ← seasonalityColKpis df dcol parsedDt num
    let t ← seasonalityAux df dcol parsedDt rest
    pure (hd ++ t)

/-- Shallow embedding of `detect_seasonality_kpis` (`creative_kpis.py`,
lines 78–156): requires a datetime and a numeric column and at least 30 rows
with a parseable datetime. -/
def detectSeasonalityKpis (df : DataFrame) (schema : Schema) : Except String (List KPI) :=
  match schema.datetimeColumns, schema.numericColumns with
  | [], _ => .ok []
  | _, [] => .ok []
  | dcol :: _, _ :: _ => do
    let dc ← getColE df dcol
    let parsedDt := dc.cells.map (fun o => o.bind parseValue)
    if (parsedDt.filterMap id).length < 30 then pure []
    else seasonalityAux df dcol parsedDt (schema.numericColumns.take 2)

/-! ### Comparative analysis (`generate_comparative_kpis`) -/

/-- Ordering of group-by keys: numeric keys compare numerically, strings
lexicographically, dates chronologically.  Mixed-kind key columns raise in
pandas; on those the model simply keeps the original order. -/
def valLe (a b : Value) : Bool :=
  match asNum a, asNum b with
  | some x, some y => decide (x ≤ y)
  | _, _ =>
    match a, b with
    | .str s, .str t => decide (s ≤ t)
    | .date d1, .date d2 => decide ((d1.y, d1.m, d1.d) ≤ (d2.y, d2.m, d2.d))
    | _, _ => true

/-- Rendering of a category value into a KPI name, modelling the f-string
interpolation `f'{top_category}'` (the rational rendering of a float cell is
a model placeholder). -/
def renderValue : Value → String
  | .str s => s
  | .int n => toString n
  | .bool b => if b then "True" else "False"
  | .float q => toString q
  | .date dt => toString dt.y ++ "-" ++ toString dt.m ++ "-" ++ toString dt.d

/-- `Series.idxmax`: the first key whose (non-null) value attains the
maximum; `none` models the ValueError raised on an empty or all-NaN
series. -/
def idxmaxAux : Option (Value × ℚ) → List (Value × Option ℚ) → Option Value
  | best, [] => best.map Prod.fst
  | best, (k, some v) :: rest =>
    (match best with
     | none => idxmaxAux (some (k, v)) rest
     | some (bk, bv) =>
       if bv < v then idxmaxAux (some (k, v)) rest
       else idxmaxAux (some (bk, bv)) rest)
  | best, (_, none) :: rest => idxmaxAux best rest

/-- First index of the maximum of a keyed series. -/
def idxmaxVal (l : List (Value × Option ℚ)) : Option Value :=
  idxmaxAux none l

/-- Comparative descriptors for one (categorical, numeric) pair: group means
of the numeric column by category, the top performer named in the first
descriptor.  (The overall mean, bottom performer and percentage deviations
feed only the omitted description and payload fields.)  An empty or all-NaN
group-mean series makes `idxmax` raise. -/
def comparativeKpisFor (df : DataFrame) (cat num : String) : Except String (List KPI) := do
  let cc ← getColE df cat
  let nc ← getColE df num
  let pairs := cc.cells.zip nc.cells
  let keys := sortedBy valLe ((cc.cells.filterMap id).dedup)
  let means : List (Value × Option ℚ) :=
    keys.map (fun k =>
      (k, meanOpt ((pairs.filter (fun p => p.1 == some k)).filterMap
        (fun p => p.2.bind asNum))))
  match idxmaxVal means with
  | none => .error "ValueError"
  | some top =>
    pure
      [ { name := titleize num ++ " Performance: " ++ renderValue top ++ " vs Average",
          category := "comparative_analysis", subcategory := "vs_average",
          difficulty := "medium", sqlFunction := "COMPARATIVE",
          columnsUsed := [num, cat], column := some num, groupBy := some cat },
        { name := titleize num ++ " Performance Gap",
          category := "comparative_analysis", subcategory := "performance_gap",
          difficulty := "medium", sqlFunction := "PERFORMANCE_GAP",
          columnsUsed := [num, cat], column := some num, groupBy := some cat } ]

/-- Inner loop over all numeric columns. -/
def comparativeInner (df : DataFrame) (cat : String) : List String → Except String (List KPI)
  | [] => .ok []
  | num :: rest => do
    let hd ← comparativeKpisFor df cat num
    let t ← comparativeInner df cat rest
    pure (hd ++ t)

/-- Outer loop over the first two categorical columns. -/
def comparativeAux (df : DataFrame) (nums : List String) : List String → Except String (List KPI)
  | [] => .ok []
  | cat :: rest => do
    let hd ← comparativeInner df cat nums
    let t ← comparativeAux df nums rest
    pure (hd ++ t)

/-- Shallow embedding of `generate_comparative_kpis` (`creative_kpis.py`,
lines 159–226). -/
def generateComparativeKpis (df : DataFrame) (schema : Schema) : Except String (List KPI) :=
  comparativeAux df schema.numericColumns (schema.categoricalColumns.take 2)

/-! ### Distribution patterns (`detect_distribution_patterns_kpis`) -/

/-- The skewness descriptor. -/
def skewKpi (col : String) : KPI :=
  { name := titleize col ++ " Distribution Skewness",
    category := "distribution_analysis", subcategory := "skewness",
    difficulty := "advanced", sqlFunction := "SKEWNESS",
    columnsUsed := [col], column := some col }

/-- The Pareto concentration descriptor. -/
def paretoKpi (col : String) : KPI :=
  { name := titleize col ++ " Concentration (80/20 Rule)",
    category := "distribution_analysis", subcategory := "pareto",
    difficulty := "advanced", sqlFunction := "CONCENTRATION",
    columnsUsed := [col], column := some col }

/-- The coefficient-of-variation descriptor. -/
def cvKpi (col : String) : KPI :=
  { name := titleize col ++ " Variability",
    category := "distribution_analysis", subcategory := "variability",
    difficulty := "medium", sqlFunction := "VARIABILITY",
    columnsUsed := [col], column := some col }

/-- Distribution descriptors of one numeric column (skewness, Pareto
concentration, coefficient of variation); columns with fewer than ten
non-null values are skipped entirely.

Square-free translations of the real-valued tests:
* `|skew| > 1` with `skew = m3 / m2^(3/2)` (the biased moment estimator of
  `scipy.stats.skew`) holds exactly when `m2 > 0` and `m3² > m2³`; a zero
  `m2` gives a NaN statistic and a false test;
* `std/mean·100 > 50` with `std = sqrt(var)` (pandas `ddof=1`) holds exactly
  when `mean > 0` and `4·var > mean²`: a negative mean makes the coefficient
  non-positive, and a zero mean is guarded to `cv = 0` in the source;
* `int(n·0.2)` equals `⌊n/5⌋` exactly (the double rounding of `n·0.2` never
  crosses an integer for any list length). -/
def distributionColKpis (df : DataFrame) (col : String) : Except String (List KPI) := do
  let c ← getColE df col
  let data := numsOf c.cells
  let n := data.length
  if n < 10 then pure []
  else
    let μ := data.sum / (n : ℚ)
    let m2 := (data.map (fun x => (x - μ) ^ 2)).sum / (n : ℚ)
    let m3 := (data.map (fun x => (x - μ) ^ 3)).sum / (n : ℚ)
    let skewK := if 0 < m2 ∧ m2 ^ 3 < m3 ^ 2 then [skewKpi col] else []
    let sortedDesc := sortedBy (fun a b => decide (b ≤ a)) data
    let topCount := n / 5
    let total := sortedDesc.sum
    let conc : ℚ := if total ≠ 0 then (sortedDesc.take topCount).sum / total * 100 else 0
    let paretoK := if 60 < conc then [paretoKpi col] else []
    let var1 := (data.map (fun x => (x - μ) ^ 2)).sum / ((n : ℚ) - 1)
    let cvK := if 0 < μ ∧ μ ^ 2 < 4 * var1 then [cvKpi col] else []
    pure (skewK ++ paretoK ++ cvK)

/-- Loop of `detect_distribution_patterns_kpis` over all numeric columns. -/
def distributionAux (df : DataFrame) : List String → Except String (List KPI)
  | [] => .ok []
  | col :: rest => do
    let hd ← distributionColKpis df col
    let t ← distributionAux df rest
    pure (hd ++ t)

/-- Shallow embedding of `detect_distribution_patterns_kpis`
(`creative_kpis.py`, lines 229–305). -/
def detectDistributionPatternsKpis (df : DataFrame) (schema : Schema) :
    Except String (List KPI) :=
  distributionAux df schema.numericColumns

/-! ### Trend breakpoints (`detect_trend_breakpoints_kpis`) -/

/-- Chronological order on dates. -/
def dateLe (a b : Date) : Bool :=
  decide ((a.y, a.m, a.d) ≤ (b.y, b.m, b.d))

/-- The trend-change descriptor. -/
def trendKpi (dcol num : String) : KPI :=
  { name := titleize num ++ " Trend Change", category := "trend_analysis",
    subcategory := "breakpoint", difficulty := "advanced",
    sqlFunction := "TREND_CHANGE", columnsUsed := [num, dcol],
    column := some num }

/-- Trend descriptor of one numeric column: rows with a parseable datetime
are kept and sorted chronologically (stably; the source's unstable sort can
differ only on equal timestamps), split at the midpoint index, and a
descriptor is emitted when the relative change of the half means exceeds 10%
in either direction.  A NaN half mean propagates to a NaN change, and the
zero guard on the first half mean yields a zero change, so neither emits. -/
def trendColKpis (df : DataFrame) (dcol : String) (parsedDt : List (Option Date))
    (num : String) : Except String (List KPI) := do
  let c ← getColE df num
  let rows : List (Date × Option ℚ) :=
    (parsedDt.zip c.cells).filterMap (fun p =>
      match p.1 with
      | some dt => some (dt, p.2.bind asNum)
      | none => none)
  let sortedRows := sortedBy (fun a b => dateLe a.1 b.1) rows
  let mid := sortedRows.length / 2
  let fh := meanOpt ((sortedRows.take mid).filterMap Prod.snd)
  let sh := meanOpt ((sortedRows.drop mid).filterMap Prod.snd)
  let emit :=
    match fh, sh with
    | some f, some s => if f ≠ 0 then decide (10 < |(s - f) / f * 100|) else false
    | _, _ => false
  pure (if emit then [trendKpi dcol num] else [])

/-- Loop of `detect_trend_breakpoints_kpis` over the first two numeric
columns. -/
def trendAux (df : DataFrame) (dcol : String) (parsedDt : List (Option Date)) :
    List String → Except String (List KPI)
  | [] => .ok []
  | num :: rest => do
    let hd ← trendColKpis df dcol parsedDt num
    let t ← trendAux df dcol parsedDt rest
    pure (hd ++ t)

/-- Shallow embedding of `detect_trend_breakpoints_kpis`
(`creative_kpis.py`, lines 308–359): requires a datetime and a numeric
column and at least ten rows with a parseable datetime. -/
def detectTrendBreakpointsKpis (df : DataFrame) (schema : Schema) :
    Except String (List KPI) :=
  match schema.datetimeColumns, schema.numericColumns with
  | [], _ => .ok []
  | _, [] => .ok []
  | dcol :: _, _ :: _ => do
    let dc ← getColE df dcol
    let parsedDt := dc.cells.map (fun o => o.bind parseValue)
    if (parsedDt.filterMap id).length < 10 then pure []
    else trendAux df dcol parsedDt (schema.numericColumns.take 2)

/-- Shallow embedding of `generate_creative_kpis` (`creative_kpis.py`,
lines 362–390): the five creative families in order, any exception
propagating. -/
def generateCreativeKpis (df : DataFrame) (schema : Schema) : Except String (List KPI) := do
  let a ← detectAnomaliesKpis df schema
  let s ← detectSeasonalityKpis df schema
  let c ← generateComparativeKpis df schema
  let d ← detectDistributionPatternsKpis df schema
  let t ← detectTrendBreakpointsKpis df schema
  pure (a ++ s ++ c ++ d ++ t)

/-! ## The engine entry point (`generate_kpis`) -/

/-- The deduplication loop of `generate_kpis` (lines 533–539): a running set
of seen names, keeping each descriptor whose name has not been seen. -/
def dedupAux (seen : List String) : List KPI → List KPI
  | [] => []
  | k :: ks =>
    if k.name ∈ seen then dedupAux seen ks
    else k :: dedupAux (k.name :: seen) ks

/-- First-wins deduplication by name. -/
def dedupByName (l : List KPI) : List KPI :=
  dedupAux [] l

/-- The accumulated rule-family output of `generate_kpis` before
deduplication (lines 515–531): the five plain families in order, then the
creative family guarded by the try/except that swallows its exceptions. -/
def allKpisOf (schema : Schema) (df : DataFrame) : Except String (List KPI) := do
  let agg := generateAggregationKpis schema df
  let ts := generateTimeSeriesKpis schema df
  let cb := generateCategoryBreakdownKpis schema df
  let conv ← generateConversionKpis schema df
  let adv ← generateAdvancedKpis schema df
  let creative :=
    match generateCreativeKpis df schema with
    | .ok l => l
    | .error _ => []
  pure (agg ++ ts ++ cb ++ conv ++ adv ++ creative)

/-- Shallow embedding of `generate_kpis` (`kpi_rules.py`, lines 504–541). -/
def generateKpis (schema : Schema) (df : DataFrame) : Except String (List KPI) := do
  let all ← allKpisOf schema df
  pure (dedupByName all)

/-- The same pipeline with the creative family removed, used to state the
graceful-degradation property. -/
def allKpisNonCreative (schema : Schema) (df : DataFrame) : Except String (List KPI) := do
  let agg := generateAggregationKpis schema df
  let ts := generateTimeSeriesKpis schema df
  let cb := generateCategoryBreakdownKpis schema df
  let conv ← generateConversionKpis schema df
  let adv ← generateAdvancedKpis schema df
  pure (agg ++ ts ++ cb ++ conv ++ adv)

/-- Deduplicated output of the five non-creative rule families. -/
def generateKpisWithoutCreative (schema : Schema) (df : DataFrame) :
    Except String (List KPI) := do
  let all ← allKpisNonCreative schema df
  pure (dedupByName all)

/-! ## Properties of the schema inferencer -/

/-- Inserting a classified name changes the role-list concatenation by
exactly that one name. -/
theorem count_roleConcat_insert (s : Schema) (t : ColType) (nm x : String) :
    ((s.insert t nm).roleConcat).count x =
      (s.roleConcat).count x + (if nm = x then 1 else 0) := by
  cases t <;>
    simp [Schema.insert, Schema.roleConcat, List.count_append, List.count_cons,
      beq_iff_eq] <;>
    split <;> omega

/-- Setting the raw column list leaves the role lists unchanged. -/
theorem roleConcat_setRaw (s : Schema) (raw : List String) :
    ({ s with rawColumns := raw } : Schema).roleConcat = s.roleConcat := rfl

/-- The classification loop distributes each processed column name into
exactly one role list: occurrence counts are preserved. -/
theorem inferSchemaAux_count (df : DataFrame) :
    ∀ (cs : List Col) (s : Schema), inferSchemaAux df cs = .ok s →
      ∀ x, s.roleConcat.count x = (cs.map Col.name).count x := by
  intro cs
  induction cs with
  | nil =>
    intro s h x
    simp [inferSchemaAux] at h
    subst h
    rfl
  | cons c cs ih =>
    intro s h x
    cases h1 : inferColumnType df c with
    | error e =>
      simp only [inferSchemaAux, h1, Bind.bind, Except.bind] at h
      cases h
    | ok t =>
      cases h2 : inferSchemaAux df cs with
      | error e =>
        simp only [inferSchemaAux, h1, h2, Bind.bind, Except.bind] at h
        cases h
      | ok s' =>
        simp only [inferSchemaAux, h1, h2, Bind.bind, Except.bind, pure,
          Except.pure, Except.ok.injEq] at h
        subst h
        rw [count_roleConcat_insert, ih s' h2 x]
        simp [List.count_cons, beq_iff_eq]

/-- C1: for every input table, the five role-lists returned by
`infer_schema` (id, datetime, categorical, numeric, text) partition the
table's column list — every raw column occurrence is matched by exactly one
occurrence across the five role lists. -/
theorem c1_roleLists_partition (df : DataFrame) (s : Schema) (x : String)
    (h : inferSchema df = .ok s) :
    s.roleConcat.count x = s.rawColumns.count x := by
  cases haux : inferSchemaAux df df.cols with
  | error e =>
    simp only [inferSchema, haux, Bind.bind, Except.bind] at h
    cases h
  | ok s0 =>
    simp only [inferSchema, haux, Bind.bind, Except.bind, pure, Except.pure,
      Except.ok.injEq] at h
    subst h
    exact inferSchemaAux_count df df.cols s0 haux x

/-- Three-column witness table for the partition property. -/
def c1wDf : DataFrame :=
  ⟨[ ⟨"user_id", .int, [some (.int 1), some (.int 2)]⟩,
     ⟨"amount", .float, [some (.float 10), some (.float 20)]⟩,
     ⟨"created", .object, [some (.str "2020-01-02"), some (.str "2020-03-04")]⟩ ]⟩

/-- The schema inferred for the witness table. -/
def c1wSchema : Schema :=
  { idColumns := ["user_id"], datetimeColumns := ["created"],
    numericColumns := ["amount"],
    rawColumns := ["user_id", "amount", "created"] }

/-- Witness: the partition property evaluated on a concrete table. -/
theorem c1_roleLists_partition_witness :
    inferSchema c1wDf = .ok c1wSchema ∧
      c1wSchema.roleConcat.count "amount" = c1wSchema.rawColumns.count "amount" :=
  ⟨by rfl, c1_roleLists_partition c1wDf c1wSchema "amount" (by rfl)⟩

/-- A zero-row dataframe with a single integer-typed column `x`. -/
def c3Col : Col := ⟨"x", .int, []⟩

/-- The zero-row dataframe around `c3Col`. -/
def c3Df : DataFrame := ⟨[c3Col]⟩

/-- C3: classifying an integer-typed column of a zero-row table raises
ZeroDivisionError — the surrogate-key unique-ratio on line 93 of
`schema_inference.py` divides by the raw `len(df)` and carries no
`max(row_count, 1)` guard, contradicting the claim that every unique-ratio
denominator is guarded. -/
theorem c3_empty_int_division_raises :
    inferColumnType c3Df c3Col = .error "ZeroDivisionError" := by rfl

/-- A well-formed column of datetime storage holds only date cells, so its
parse sample always converts. -/
theorem sampleParses_of_wf_datetime (c : Col) (hwf : c.wf = true)
    (hd : c.dtype = DType.datetime) : sampleParses c = true := by
  unfold Col.wf at hwf
  rw [List.all_eq_true] at hwf
  unfold sampleParses
  rw [List.all_eq_true]
  intro v hv
  have hv' : v ∈ c.cells.filterMap id := List.mem_of_mem_take hv
  rw [List.mem_filterMap] at hv'
  obtain ⟨o, ho, hoo⟩ := hv'
  have hfit := hwf o ho
  cases o with
  | none => cases hoo
  | some w =>
    cases hoo
    cases v with
    | date dt => simp [parseValue]
    | int n => rw [hd] at hfit; simp [cellFits] at hfit
    | float q => rw [hd] at hfit; simp [cellFits] at hfit
    | bool b => rw [hd] at hfit; simp [cellFits] at hfit
    | str s => rw [hd] at hfit; simp [cellFits] at hfit

/-- A failing parse sample forces a non-empty cell list. -/
theorem cells_ne_nil_of_sampleFail (c : Col) (hfail : sampleParses c = false) :
    c.cells ≠ [] := by
  intro hnil
  unfold sampleParses sampleCells at hfail
  rw [hnil] at hfail
  simp at hfail

/-- C7: a column whose name matches a datetime pattern but whose sampled
non-null values fail to parse is not classified Datetime; the parse failure
is swallowed and classification falls through to the data-type-based rules,
with no exception escaping. -/
theorem c7_datetime_name_parse_failure (df : DataFrame) (c : Col)
    (hwf : c.wf = true) (hlen : c.cells.length = df.rowCount)
    (hdt : dtPatternMatch c.name = true) (hfail : sampleParses c = false) :
    ∃ t, inferColumnType df c = .ok t ∧ t ≠ ColType.datetime := by
  have hrow : df.rowCount ≠ 0 := by
    rw [← hlen]
    simp only [ne_eq, List.length_eq_zero]
    exact cells_ne_nil_of_sampleFail c hfail
  have hdtparse := sampleParses_of_wf_datetime c hwf
  obtain ⟨nm, dty, cells⟩ := c
  unfold inferColumnType
  by_cases hid : idPatternMatch nm = true
  · exact ⟨.id, by rw [if_pos hid], by decide⟩
  · rw [if_neg hid, hfail, Bool.and_false, if_neg Bool.false_ne_true]
    cases dty with
    | int =>
      dsimp only
      rw [if_neg hrow]
      by_cases h95 : (0.95 : ℚ) <
          (nuniqueCol ⟨nm, .int, cells⟩ : ℚ) / (df.rowCount : ℚ)
      · exact ⟨.id, by rw [if_pos h95], by decide⟩
      · exact ⟨.numeric, by rw [if_neg h95], by decide⟩
    | float => exact ⟨.numeric, rfl, by decide⟩
    | bool => exact ⟨.numeric, rfl, by decide⟩
    | datetime =>
      exact absurd (hdtparse rfl) (by rw [hfail]; decide)
    | object =>
      dsimp only
      rw [Bool.and_false, if_neg Bool.false_ne_true]
      repeat first
        | exact ⟨ColType.categorical, rfl, by decide⟩
        | exact ⟨ColType.text, rfl, by decide⟩
        | split

/-- Witness column for the datetime-name parse-failure fallthrough:
`update_day` holds `apple`, `banana`, `cherry`. -/
def c7Col : Col :=
  ⟨"update_day", .object,
    [some (.str "apple"), some (.str "banana"), some (.str "cherry")]⟩

/-- The dataframe around `c7Col`. -/
def c7Df : DataFrame := ⟨[c7Col]⟩

/-- Witness: the `update_day` column of the claim is not classified
Datetime and raises nothing. -/
theorem c7_datetime_name_parse_failure_witness :
    dtPatternMatch "update_day" = true ∧ sampleParses c7Col = false ∧
      (∃ t, inferColumnType c7Df c7Col = .ok t ∧ t ≠ ColType.datetime) :=
  ⟨by decide, by decide,
    c7_datetime_name_parse_failure c7Df c7Col (by decide) rfl (by decide)
      (by decide)⟩

/-- After the two name checks fail, an integer-dtype column on a table with
rows classifies by the surrogate-key unique ratio. -/
theorem inferColumnType_int_branch (df : DataFrame) (c : Col)
    (hid : idPatternMatch c.name = false)
    (hdtp : (dtPatternMatch c.name && sampleParses c) = false)
    (hint : c.dtype = DType.int) (hrow : df.rowCount ≠ 0) :
    inferColumnType df c =
      (if (0.95 : ℚ) < (nuniqueCol c : ℚ) / (df.rowCount : ℚ)
       then .ok .id else .ok .numeric) := by
  obtain ⟨nm, dty, cells⟩ := c
  dsimp only at hint
  subst hint
  unfold inferColumnType
  rw [if_neg (by simp [hid]), if_neg (by simp [hdtp])]
  dsimp only
  rw [if_neg hrow]

/-- Integer column `x` with 19 distinct values among 20 rows: the unique
ratio is exactly 0.95. -/
def c8Col : Col :=
  ⟨"x", .int, (List.range 19).map (fun i => some (.int i)) ++ [some (.int 18)]⟩

/-- The dataframe around `c8Col`. -/
def c8Df : DataFrame := ⟨[c8Col]⟩

/-- C8 counterexample: at a unique ratio of exactly 0.95 (19 distinct values
in 20 rows, name matching no pattern) the column is classified numeric, not
Identifier — the source tests `unique_ratio > 0.95` strictly, so "at least
95% unique" is not sufficient. -/
theorem c8_exact95_counterexample :
    idPatternMatch "x" = false ∧ dtPatternMatch "x" = false ∧
      c8Col.dtype = DType.int ∧
      (0.95 : ℚ) ≤ (nuniqueCol c8Col : ℚ) / (c8Df.rowCount : ℚ) ∧
      inferColumnType c8Df c8Col = .ok ColType.numeric := by
  have h19 : nuniqueCol c8Col = 19 := by decide
  have h20 : c8Df.rowCount = 20 := by rfl
  refine ⟨by decide, by decide, rfl, ?_, ?_⟩
  · rw [h19, h20]; norm_num
  · rw [inferColumnType_int_branch c8Df c8Col (by decide) (by decide) rfl
      (by decide)]
    rw [h19, h20]
    rw [if_neg (by norm_num)]

/-- C8 (amended): a column of integer storage type whose name matches
neither an identifier nor a datetime pattern is classified Identifier when
strictly more than 95% of its values are unique
(`100 · nunique > 95 · row_count`); at exactly 95% it stays numeric. -/
theorem c8_surrogate_key_override (df : DataFrame) (c : Col)
    (hid : idPatternMatch c.name = false)
    (hdt : dtPatternMatch c.name = false)
    (hint : c.dtype = DType.int)
    (hlen : c.cells.length = df.rowCount)
    (h95 : df.rowCount * 95 < nuniqueCol c * 100) :
    inferColumnType df c = .ok ColType.id := by
  have hrow : df.rowCount ≠ 0 := by
    intro h0
    have hcells : c.cells = [] := by rw [← List.length_eq_zero, hlen, h0]
    have hnu : nuniqueCol c = 0 := by rw [nuniqueCol, hcells]; rfl
    omega
  rw [inferColumnType_int_branch df c hid (by rw [hdt]; rfl) hint hrow]
  rw [if_pos ?cond]
  case cond =>
    have hQ : (0 : ℚ) < (df.rowCount : ℚ) := by
      exact_mod_cast Nat.pos_of_ne_zero hrow
    rw [lt_div_iff₀ hQ]
    have h95Q : (df.rowCount : ℚ) * 95 < (nuniqueCol c : ℚ) * 100 := by
      exact_mod_cast h95
    linarith

/-- Integer column `x` with 20 distinct values among 20 rows. -/
def c8wCol : Col := ⟨"x", .int, (List.range 20).map (fun i => some (.int i))⟩

/-- The dataframe around `c8wCol`. -/
def c8wDf : DataFrame := ⟨[c8wCol]⟩

/-- Witness: an all-distinct integer column with a patternless name is
classified Identifier. -/
theorem c8_surrogate_key_override_witness :
    c8wDf.rowCount * 95 < nuniqueCol c8wCol * 100 ∧
      inferColumnType c8wDf c8wCol = .ok ColType.id :=
  ⟨by decide,
    c8_surrogate_key_override c8wDf c8wCol (by decide) (by decide) rfl rfl
      (by decide)⟩

/-- All-null column whose name matches both an identifier pattern (`id_`)
and a datetime pattern (`date`). -/
def c10cCol : Col := ⟨"id_date", .object, [none, none]⟩

/-- The dataframe around `c10cCol`. -/
def c10cDf : DataFrame := ⟨[c10cCol]⟩

/-- C10 counterexample: an all-null column whose name matches a datetime
pattern is classified Identifier, not Datetime, when the name also matches
an identifier pattern — the identifier check runs first. -/
theorem c10_counterexample :
    dtPatternMatch "id_date" = true ∧
      c10cCol.cells.all Option.isNone = true ∧
      inferColumnType c10cDf c10cCol = .ok ColType.id :=
  ⟨by decide, by decide, by rfl⟩

/-- C10 (amended): an all-null column whose name matches a datetime pattern
and no identifier pattern is classified Datetime (the parse runs on an empty
sample and succeeds vacuously); and the later object-storage datetime check
parses only a non-empty sample, so an all-null object column with a
non-matching name is never classified Datetime. -/
theorem c10_allnull_classification (df : DataFrame) (c : Col)
    (hnull : c.cells.all Option.isNone = true) :
    (dtPatternMatch c.name = true → idPatternMatch c.name = false →
        inferColumnType df c = .ok ColType.datetime) ∧
      (dtPatternMatch c.name = false → c.dtype = DType.object →
        inferColumnType df c ≠ .ok ColType.datetime) := by
  have hsample : sampleCells c = [] := by
    unfold sampleCells
    have hfm : c.cells.filterMap id = [] := by
      rw [List.filterMap_eq_nil_iff]
      intro o ho
      have hnone := (List.all_eq_true.mp hnull) o ho
      cases o
      · rfl
      · simp at hnone
    rw [hfm]
    rfl
  have hparse : sampleParses c = true := by
    unfold sampleParses
    rw [hsample]
    rfl
  constructor
  · intro hdt hid
    unfold inferColumnType
    rw [if_neg (by simp [hid]), if_pos (by simp [hdt, hparse])]
  · intro hdt hobj
    obtain ⟨nm, dty, cells⟩ := c
    dsimp only at hobj hdt hsample hparse
    subst hobj
    unfold inferColumnType
    by_cases hid : idPatternMatch nm = true
    · rw [if_pos hid]; simp
    · rw [if_neg hid, hdt, Bool.false_and, if_neg Bool.false_ne_true]
      dsimp only
      rw [hsample, hparse]
      rw [if_neg (by simp)]
      intro hEq
      repeat first
        | exact Except.noConfusion hEq (fun h => ColType.noConfusion h)
        | split at hEq

/-- All-null column named `created` (datetime pattern, no identifier
pattern). -/
def c10wCol : Col := ⟨"created", .object, [none]⟩

/-- The dataframe around `c10wCol`. -/
def c10wDf : DataFrame := ⟨[c10wCol]⟩

/-- Witness: the all-null classification facts evaluated at `created`. -/
theorem c10_allnull_classification_witness :
    (dtPatternMatch c10wCol.name = true → idPatternMatch c10wCol.name = false →
        inferColumnType c10wDf c10wCol = .ok ColType.datetime) ∧
      (dtPatternMatch c10wCol.name = false → c10wCol.dtype = DType.object →
        inferColumnType c10wDf c10wCol ≠ .ok ColType.datetime) :=
  c10_allnull_classification c10wDf c10wCol (by decide)

/-! ## Properties of the KPI engine -/

/-- The deduplication loop returns a sublist of its input. -/
theorem dedupAux_sublist (seen : List String) :
    ∀ l : List KPI, (dedupAux seen l).Sublist l := by
  intro l
  induction l generalizing seen with
  | nil => simp [dedupAux]
  | cons k ks ih =>
    unfold dedupAux
    split
    · exact (ih seen).cons k
    · exact (ih (k.name :: seen)).cons₂ k

/-- Names surviving the deduplication loop are distinct and avoid the seen
set. -/
theorem dedupAux_nodup (seen : List String) :
    ∀ l : List KPI, ((dedupAux seen l).map KPI.name).Nodup ∧
      ∀ k ∈ dedupAux seen l, k.name ∉ seen := by
  intro l
  induction l generalizing seen with
  | nil => simp [dedupAux]
  | cons k ks ih =>
    unfold dedupAux
    split
    · exact ⟨(ih seen).1, (ih seen).2⟩
    · next hseen =>
      obtain ⟨ihn, ihs⟩ := ih (k.name :: seen)
      refine ⟨?_, ?_⟩
      · simp only [List.map_cons, List.nodup_cons]
        refine ⟨?_, ihn⟩
        intro hmem
        rw [List.mem_map] at hmem
        obtain ⟨k', hk', hname⟩ := hmem
        exact (ihs k' hk') (by rw [hname]; exact List.mem_cons_self _ _)
      · intro k' hk'
        rw [List.mem_cons] at hk'
        rcases hk' with rfl | hk'
        · exact hseen
        · intro hs
          exact (ihs k' hk') (List.mem_cons_of_mem _ hs)

/-- For a name not in the seen set, the first surviving descriptor with that
name is the first occurrence in the input. -/
theorem dedupAux_find (seen : List String) :
    ∀ (l : List KPI) (n : String), n ∉ seen →
      (dedupAux seen l).find? (fun k => k.name == n) =
        l.find? (fun k => k.name == n) := by
  intro l
  induction l generalizing seen with
  | nil => intro n _; rfl
  | cons k ks ih =>
    intro n hn
    unfold dedupAux
    split
    · next hseen =>
      have hkn : (k.name == n) = false := by
        rw [beq_eq_false_iff_ne]
        intro he
        exact hn (he ▸ hseen)
      rw [List.find?_cons_of_neg _ (by rw [hkn]; exact Bool.false_ne_true),
        ih seen n hn]
    · next hseen =>
      by_cases hkn : k.name = n
      · rw [List.find?_cons_of_pos _ (by rw [hkn]; exact beq_self_eq_true n),
          List.find?_cons_of_pos _ (by rw [hkn]; exact beq_self_eq_true n)]
      · rw [List.find?_cons_of_neg _ (by simp [hkn]),
          List.find?_cons_of_neg _ (by simp [hkn])]
        refine ih (k.name :: seen) n ?_
        intro hmem
        rw [List.mem_cons] at hmem
        rcases hmem with hmem | hmem
        · exact hkn hmem.symm
        · exact hn hmem

/-- C2: the catalogue returned by `generate_kpis` carries pairwise-distinct
names, is a subsequence of the accumulated rule-family output (relative
order preserved), and for every name the surviving descriptor is the
first-emitted one with that name. -/
theorem c2_dedup_first_wins (schema : Schema) (df : DataFrame)
    (all out : List KPI) (n : String)
    (h1 : allKpisOf schema df = .ok all)
    (h2 : generateKpis schema df = .ok out) :
    (out.map KPI.name).Nodup ∧ out.Sublist all ∧
      out.find? (fun k => k.name == n) = all.find? (fun k => k.name == n) := by
  have hout : out = dedupByName all := by
    simp only [generateKpis, h1, Bind.bind, Except.bind, pure, Except.pure,
      Except.ok.injEq] at h2
    exact h2.symm
  subst hout
  exact ⟨(dedupAux_nodup [] all).1, dedupAux_sublist [] all,
    dedupAux_find [] all n (by simp)⟩

/-- One-column witness table whose schema lists the status-like column
`state` twice, forcing duplicate names in the rule-family output. -/
def c2wDf : DataFrame :=
  ⟨[⟨"state", .object, [some (.str "a"), some (.str "b")]⟩]⟩

/-- Witness schema with a duplicated categorical entry. -/
def c2wSchema : Schema :=
  { idColumns := ["uid"], categoricalColumns := ["state", "state"],
    rawColumns := ["state"] }

/-- Witness: the deduplication facts evaluated on a concrete catalogue with
duplicate names. -/
theorem c2_dedup_first_wins_witness :
    ((((generateKpis c2wSchema c2wDf).toOption.getD []).map KPI.name).Nodup ∧
      ((generateKpis c2wSchema c2wDf).toOption.getD []).Sublist
        ((allKpisOf c2wSchema c2wDf).toOption.getD []) ∧
      ((generateKpis c2wSchema c2wDf).toOption.getD []).find?
          (fun k => k.name == "Count by State") =
        ((allKpisOf c2wSchema c2wDf).toOption.getD []).find?
          (fun k => k.name == "Count by State")) :=
  c2_dedup_first_wins c2wSchema c2wDf _ _ "Count by State" (by rfl) (by rfl)

/-- C9: when the creative rule family raises, `generate_kpis` swallows the
exception and returns exactly the deduplicated concatenation of the five
other rule families. -/
theorem c9_creative_failure_degrades (schema : Schema) (df : DataFrame)
    (e : String) (h : generateCreativeKpis df schema = .error e) :
    generateKpis schema df = generateKpisWithoutCreative schema df := by
  unfold generateKpis generateKpisWithoutCreative allKpisOf allKpisNonCreative
  rw [h]
  cases hconv : generateConversionKpis schema df <;>
    cases hadv : generateAdvancedKpis schema df <;>
      simp [Bind.bind, Except.bind, pure, Except.pure, hconv, hadv]

/-- Witness table whose only column is `y`. -/
def c9wDf : DataFrame := ⟨[⟨"y", .float, [some (.float 1)]⟩]⟩

/-- Witness schema listing the numeric column `x`, which is absent from the
table: the anomaly rule's `df['x']` raises a KeyError inside the creative
family, while the five earlier families never touch that column on this
schema. -/
def c9wSchema : Schema := { numericColumns := ["x"], rawColumns := ["y"] }

/-- Witness: a concrete creative-family exception that is swallowed. -/
theorem c9_creative_failure_degrades_witness :
    generateCreativeKpis c9wDf c9wSchema = .error "KeyError" ∧
      generateKpis c9wSchema c9wDf = generateKpisWithoutCreative c9wSchema c9wDf :=
  ⟨by rfl,
    c9_creative_failure_degrades c9wSchema c9wDf "KeyError" (by rfl)⟩

/-- A successful sum lookup agrees with the total column sum. -/
theorem colSumE_ok (df : DataFrame) (nm : String) (s : ℚ)
    (h : colSumE df nm = .ok s) : colSum df nm = s := by
  unfold colSumE getColE at h
  cases hl : lookupCol df nm with
  | none =>
    rw [hl] at h
    simp [Bind.bind, Except.bind] at h
  | some c =>
    rw [hl] at h
    simp only [Bind.bind, Except.bind, pure, Except.pure, Except.ok.injEq] at h
    unfold colSum
    rw [hl]
    exact h

/-- Every descriptor produced by the inner ratio loop has the leading column
as denominator, and that column's sum is non-zero. -/
theorem ratioInner_mem (df : DataFrame) (c1 : String) :
    ∀ (l : List String) (out : List KPI), ratioInner df c1 l = .ok out →
      ∀ k ∈ out, k.denominator = some c1 ∧ colSum df c1 ≠ 0 := by
  intro l
  induction l with
  | nil =>
    intro out h k hk
    simp only [ratioInner, Except.ok.injEq] at h
    subst h
    cases hk
  | cons c2 rest ih =>
    intro out h k hk
    cases hs : colSumE df c1 with
    | error e =>
      simp only [ratioInner, hs, Bind.bind, Except.bind] at h
      exact Except.noConfusion h
    | ok s =>
      cases ht : ratioInner df c1 rest with
      | error e =>
        simp only [ratioInner, hs, ht, Bind.bind, Except.bind] at h
        exact Except.noConfusion h
      | ok t =>
        simp only [ratioInner, hs, ht, Bind.bind, Except.bind, pure,
          Except.pure, Except.ok.injEq] at h
        subst h
        rw [List.mem_append] at hk
        rcases hk with hk | hk
        · by_cases hz : s ≠ 0
          · rw [if_pos hz] at hk
            rw [List.mem_singleton] at hk
            subst hk
            exact ⟨rfl, by rw [colSumE_ok df c1 s hs]; exact hz⟩
          · rw [if_neg hz] at hk
            cases hk
        · exact ih t ht k hk

/-- Every descriptor produced by the ratio loops has a denominator column
with non-zero sum. -/
theorem ratioAux_mem (df : DataFrame) :
    ∀ (l : List String) (out : List KPI), ratioAux df l = .ok out →
      ∀ k ∈ out, ∃ c1, k.denominator = some c1 ∧ colSum df c1 ≠ 0 := by
  intro l
  induction l with
  | nil =>
    intro out h k hk
    simp only [ratioAux, Except.ok.injEq] at h
    subst h
    cases hk
  | cons c1 rest ih =>
    intro out h k hk
    cases hh : ratioInner df c1 rest with
    | error e =>
      simp only [ratioAux, hh, Bind.bind, Except.bind] at h
      exact Except.noConfusion h
    | ok hd =>
      cases ht : ratioAux df rest with
      | error e =>
        simp only [ratioAux, hh, ht, Bind.bind, Except.bind] at h
        exact Except.noConfusion h
      | ok t =>
        simp only [ratioAux, hh, ht, Bind.bind, Except.bind, pure,
          Except.pure, Except.ok.injEq] at h
        subst h
        rw [List.mem_append] at hk
        rcases hk with hk | hk
        · exact ⟨c1, ratioInner_mem df c1 rest hd hh k hk⟩
        · exact ih t ht k hk

/-- Membership analysis of the three segments of the advanced-KPI output:
percentile and growth descriptors carry no denominator, ratio descriptors
carry a denominator with non-zero sum. -/
theorem advancedShape_denominator (schema : Schema) (df : DataFrame)
    (a : String) (ha : colSum df a = 0) (ratios : List KPI)
    (hmem : ∀ k' ∈ ratios, ∃ c1, k'.denominator = some c1 ∧ colSum df c1 ≠ 0)
    (k : KPI)
    (hk : k ∈ schema.numericColumns.flatMap percentileKpis ++ ratios ++
      (match schema.datetimeColumns with
       | [] => []
       | dcol :: _ =>
         if schema.numericColumns.isEmpty = true then []
         else (schema.numericColumns.take 2).map (growthKpi dcol))) :
    k.denominator ≠ some a := by
  rw [List.mem_append, List.mem_append] at hk
  rcases hk with (hk | hk) | hk
  · rw [List.mem_flatMap] at hk
    obtain ⟨col, _, hkin⟩ := hk
    simp only [percentileKpis, List.mem_cons, List.mem_singleton] at hkin
    rcases hkin with rfl | rfl | rfl | h0
    · simp
    · simp
    · simp
    · cases h0
  · obtain ⟨c1, hc1, hsum⟩ := hmem k hk
    rw [hc1]
    intro he
    rw [Option.some.injEq] at he
    exact hsum (he ▸ ha)
  · cases hdt : schema.datetimeColumns with
    | nil =>
      rw [hdt] at hk
      dsimp only at hk
      cases hk
    | cons dcol drest =>
      rw [hdt] at hk
      dsimp only at hk
      by_cases hne : schema.numericColumns.isEmpty
      · rw [if_pos hne] at hk; cases hk
      · rw [if_neg hne] at hk
        rw [List.mem_map] at hk
        obtain ⟨col, _, hkeq⟩ := hk
        rw [← hkeq]
        simp [growthKpi]

/-- C5 (amended): `generate_advanced_kpis` never emits a ratio descriptor
whose denominator column sums to zero; in particular no ratio with an
all-zero column A as denominator is emitted (while a ratio of A to an
earlier non-zero column B is). -/
theorem c5_ratio_denominator_guard (schema : Schema) (df : DataFrame)
    (a : String) (out : List KPI) (k : KPI)
    (h : generateAdvancedKpis schema df = .ok out)
    (ha : colSum df a = 0) (hk : k ∈ out) :
    k.denominator ≠ some a := by
  unfold generateAdvancedKpis at h
  by_cases h2 : 2 ≤ schema.numericColumns.length
  · rw [if_pos h2] at h
    cases hr : ratioAux df schema.numericColumns with
    | error e =>
      rw [hr] at h
      exact Except.noConfusion h
    | ok ratios =>
      rw [hr] at h
      simp only [Bind.bind, Except.bind, pure, Except.pure, Except.ok.injEq] at h
      subst h
      exact advancedShape_denominator schema df a ha ratios
        (ratioAux_mem df schema.numericColumns ratios hr) k hk
  · rw [if_neg h2] at h
    simp only [Bind.bind, Except.bind, pure, Except.pure, Except.ok.injEq] at h
    subst h
    refine advancedShape_denominator schema df a ha [] ?_ k hk
    intro k' hk'
    cases hk'

/-- Two-column table: `b` (first) sums to 3, `a` (second) is all zero. -/
def c5Df : DataFrame :=
  ⟨[⟨"b", .float, [some (.float 1), some (.float 2)]⟩,
    ⟨"a", .float, [some (.float 0), some (.float 0)]⟩]⟩

/-- Schema listing `b` before the all-zero `a`. -/
def c5Schema : Schema := { numericColumns := ["b", "a"], rawColumns := ["b", "a"] }

/-- C5 counterexample: with the all-zero column `a` listed after `b`, a
ratio descriptor between `a` and `b` (A-to-B, denominator `b`) is emitted —
the guard checks only the denominator column's sum, so "never emits a ratio
between A and B regardless of order" fails. -/
theorem c5_counterexample :
    colSum c5Df "a" = 0 ∧
      ∃ out, generateAdvancedKpis c5Schema c5Df = .ok out ∧
        ratioKpi "b" "a" ∈ out ∧
        (ratioKpi "b" "a").sqlFunction = "RATIO" ∧
        (ratioKpi "b" "a").columnsUsed = ["b", "a"] := by
  have hsum0 : colSum c5Df "a" = 0 := by
    show sumCells [some (.float 0), some (.float 0)] = 0
    simp [sumCells, numsOf, asNum]
  have hs : colSumE c5Df "b" = .ok (sumCells [some (.float 1), some (.float 2)]) :=
    by rfl
  have hs0 : sumCells [some (.float 1), some (.float 2)] ≠ 0 := by
    simp [sumCells, numsOf, asNum]
    norm_num
  have hinner0 : ratioInner c5Df "b" [] = .ok [] := rfl
  have hinner : ratioInner c5Df "b" ["a"] = .ok [ratioKpi "b" "a"] := by
    unfold ratioInner
    rw [hs, hinner0]
    simp only [Bind.bind, Except.bind, pure, Except.pure, if_pos hs0,
      List.append_nil]
  have haux0 : ratioAux c5Df ["a"] = .ok [] := rfl
  have haux : ratioAux c5Df ["b", "a"] = .ok [ratioKpi "b" "a"] := by
    unfold ratioAux
    rw [hinner, haux0]
    simp [Bind.bind, Except.bind, pure, Except.pure]
  refine ⟨hsum0,
    c5Schema.numericColumns.flatMap percentileKpis ++ [ratioKpi "b" "a"] ++ [],
    ?_, ?_, rfl, rfl⟩
  · unfold generateAdvancedKpis
    rw [if_pos (show 2 ≤ c5Schema.numericColumns.length by decide)]
    rw [show c5Schema.numericColumns = ["b", "a"] from rfl]
    rw [haux]
    simp only [Bind.bind, Except.bind, pure, Except.pure, Except.ok.injEq]
    rfl
  · simp

/-- One-column witness table whose only numeric column is all zero. -/
def c5wDf : DataFrame := ⟨[⟨"a", .float, [some (.float 0), some (.float 0)]⟩]⟩

/-- Witness schema around `c5wDf`. -/
def c5wSchema : Schema := { numericColumns := ["a"], rawColumns := ["a"] }

/-- Witness: the denominator guard evaluated on a concrete catalogue. -/
theorem c5_ratio_denominator_guard_witness :
    colSum c5wDf "a" = 0 ∧
      ({ name := "Median A", category := "statistical",
         subcategory := "percentile", difficulty := "medium",
         sqlFunction := "MEDIAN", columnsUsed := ["a"], column := some "a",
         percentile := some 50 } : KPI).denominator ≠ some "a" := by
  have hz : colSum c5wDf "a" = 0 := by
    show sumCells [some (.float 0), some (.float 0)] = 0
    simp [sumCells, numsOf, asNum]
  exact ⟨hz,
    c5_ratio_denominator_guard c5wSchema c5wDf "a"
      ((generateAdvancedKpis c5wSchema c5wDf).toOption.getD []) _ (by rfl) hz
      (by decide)⟩

/-- Granularity inference resolves to day when the sample has more than two
distinct dates and at least one distinct date per ten sampled values, and
the column name carries no `year` hint. -/
theorem gran_day_of (df : DataFrame) (dcol : String) (c : Col)
    (hc : lookupCol df dcol = some c)
    (hyear : strHas (pyLower dcol) "year" = false)
    (hud : 2 < (sampleDatesOf c).dedup.length)
    (hmonth : (sampleDatesOf c).length ≤ 10 * (sampleDatesOf c).dedup.length) :
    inferTimeGranularity df dcol = .day := by
  have hdle : (sampleDatesOf c).dedup.length ≤ (sampleDatesOf c).length :=
    List.Sublist.length_le (List.dedup_sublist _)
  have hlen0 : (sampleDatesOf c).length > 0 := by omega
  unfold inferTimeGranularity
  rw [hc]
  dsimp only
  rw [if_pos hlen0, hyear]
  rw [decide_eq_false (by omega : ¬(sampleDatesOf c).dedup.length ≤ 2)]
  rw [Bool.and_false, Bool.or_false, if_neg Bool.false_ne_true]
  rw [if_neg ?hm]
  case hm =>
    intro hlt
    have hmQ : ((sampleDatesOf c).length : ℚ) ≤
        10 * ((sampleDatesOf c).dedup.length : ℚ) := by exact_mod_cast hmonth
    have h01 : (0.1 : ℚ) = 1 / 10 := by norm_num
    rw [h01] at hlt
    linarith

/-- C4 (amended): for a table whose first Datetime column samples to four
distinct dates in four distinct calendar years (and whose name carries no
`year` hint), the time-series family infers day — not year — granularity
and emits a per-day descriptor for each Numeric column. -/
theorem c4_four_distinct_years_day_granularity (schema : Schema)
    (df : DataFrame) (dcol : String) (rest : List String) (c : Col)
    (ncol : String)
    (hd : schema.datetimeColumns = dcol :: rest)
    (hc : lookupCol df dcol = some c)
    (hyear : strHas (pyLower dcol) "year" = false)
    (hslen : (sampleDatesOf c).length = 4)
    (hdays : (sampleDatesOf c).dedup.length = 4)
    (_hyears : ((sampleDatesOf c).map Date.y).dedup.length = 4)
    (hn : ncol ∈ schema.numericColumns) :
    inferTimeGranularity df dcol = .day ∧
      (titleize ncol ++ " per Day") ∈
        (generateTimeSeriesKpis schema df).map KPI.name := by
  have hg : inferTimeGranularity df dcol = .day :=
    gran_day_of df dcol c hc hyear (by omega) (by omega)
  refine ⟨hg, ?_⟩
  unfold generateTimeSeriesKpis
  rw [hd]
  dsimp only
  rw [hg]
  rw [List.mem_map]
  exact ⟨_, List.mem_append_left _
    (List.mem_flatMap.mpr ⟨ncol, hn, List.mem_cons_self _ _⟩), rfl⟩

/-- Datetime column with four distinct dates, one per calendar year. -/
def c4Col : Col :=
  ⟨"event_date", .datetime,
    [some (.date ⟨2020, 1, 15⟩), some (.date ⟨2021, 3, 10⟩),
     some (.date ⟨2022, 7, 4⟩), some (.date ⟨2023, 11, 20⟩)]⟩

/-- Numeric companion column. -/
def c4NumCol : Col :=
  ⟨"sales", .float,
    [some (.float 5), some (.float 6), some (.float 7), some (.float 8)]⟩

/-- The 4-row table of the claim. -/
def c4Df : DataFrame := ⟨[c4Col, c4NumCol]⟩

/-- Its schema. -/
def c4Schema : Schema :=
  { datetimeColumns := ["event_date"], numericColumns := ["sales"],
    rawColumns := ["event_date", "sales"] }

/-- C4 counterexample: on the 4-row, one-date-per-year table the inferred
granularity is day, and no per-year descriptor is emitted for the numeric
column — the year rule requires at most two distinct years and days (or a
name hint), so the claim's year granularity fails. -/
theorem c4_counterexample :
    strHas (pyLower "event_date") "year" = false ∧
      (sampleDatesOf c4Col).length = 4 ∧
      (sampleDatesOf c4Col).dedup.length = 4 ∧
      ((sampleDatesOf c4Col).map Date.y).dedup.length = 4 ∧
      inferTimeGranularity c4Df "event_date" = .day ∧
      "Sales per Year" ∉ (generateTimeSeriesKpis c4Schema c4Df).map KPI.name ∧
      "Sales per Day" ∈ (generateTimeSeriesKpis c4Schema c4Df).map KPI.name := by
  have hg : inferTimeGranularity c4Df "event_date" = .day :=
    gran_day_of c4Df "event_date" c4Col (by rfl) (by decide) (by decide)
      (by decide)
  have hts : generateTimeSeriesKpis c4Schema c4Df =
      (c4Schema.numericColumns.flatMap
        (timeSeriesNumKpis "event_date" (inferTimeGranularity c4Df "event_date")))
      ++ ((c4Schema.idColumns.take 1).map
        (timeSeriesIdKpi "event_date" (inferTimeGranularity c4Df "event_date"))) :=
    by rfl
  refine ⟨by decide, by decide, by decide, by decide, hg, ?_, ?_⟩
  · rw [hts, hg]
    decide
  · rw [hts, hg]
    decide

/-- Witness: the amended day-granularity behaviour on the concrete 4-row
table. -/
theorem c4_four_distinct_years_day_granularity_witness :
    inferTimeGranularity c4Df "event_date" = .day ∧
      (titleize "sales" ++ " per Day") ∈
        (generateTimeSeriesKpis c4Schema c4Df).map KPI.name :=
  c4_four_distinct_years_day_granularity c4Schema c4Df "event_date" []
    c4Col "sales" rfl rfl (by decide) (by decide) (by decide) (by decide)
    (by decide)

/-- Reduced form of the per-column anomaly descriptors on a table with a
present column. -/
theorem anomalyColKpis_eq (df : DataFrame) (colName : String) (c : Col)
    (hcc : lookupCol df colName = some c) :
    anomalyColKpis df colName = .ok
      ((if (0 : ℚ) < (if 0 < (numsOf c.cells).length
            then (zAnomalyCount c : ℚ) / ((numsOf c.cells).length : ℚ) * 100
            else 0)
        then [zScoreKpi colName] else []) ++
       (if 5 < iqrOutlierPct df colName then [iqrKpi colName] else [])) := by
  unfold anomalyColKpis getColE
  rw [hcc]
  simp only [Bind.bind, Except.bind]
  rfl

/-- C6: the IQR anomaly rule emits an Outlier Detection descriptor for the
(single) numeric column exactly when the 1.5×IQR-fence outlier share among
all rows is strictly greater than 5 percent. -/
theorem c6_iqr_strict_threshold (df : DataFrame) (schema : Schema)
    (colName : String) (c : Col)
    (hs : schema.numericColumns = [colName])
    (hcc : lookupCol df colName = some c)
    (_hrow : 0 < df.rowCount) :
    ∃ out, detectAnomaliesKpis df schema = .ok out ∧
      ((∃ k, k ∈ out ∧ k.sqlFunction = "OUTLIER_DETECTION") ↔
        5 < iqrOutlierPct df colName) := by
  have he := anomalyColKpis_eq df colName c hcc
  unfold detectAnomaliesKpis
  rw [hs]
  have haux : detectAnomaliesAux df [colName] = .ok
      (((if (0 : ℚ) < (if 0 < (numsOf c.cells).length
            then (zAnomalyCount c : ℚ) / ((numsOf c.cells).length : ℚ) * 100
            else 0)
        then [zScoreKpi colName] else []) ++
       (if 5 < iqrOutlierPct df colName then [iqrKpi colName] else [])) ++ []) := by
    unfold detectAnomaliesAux
    rw [he]
    simp only [detectAnomaliesAux, Bind.bind, Except.bind, pure, Except.pure]
  refine ⟨_, haux, ?_, ?_⟩
  · rintro ⟨k, hk, hsql⟩
    simp only [List.append_nil, List.mem_append] at hk
    rcases hk with hk | hk
    · repeat split at hk
      all_goals first
        | (rw [List.mem_singleton] at hk
           rw [hk] at hsql
           simp [zScoreKpi] at hsql)
        | cases hk
    · split at hk
      · next h5 => exact h5
      · cases hk
  · intro h5
    refine ⟨iqrKpi colName, ?_, rfl⟩
    simp only [List.append_nil, List.mem_append]
    right
    rw [if_pos h5]
    exact List.mem_singleton.mpr rfl

/-- Twenty-row witness column: nineteen values of 10 and one of 1000. -/
def c6wCol : Col :=
  ⟨"v", .float, List.replicate 19 (some (.float 10)) ++ [some (.float 1000)]⟩

/-- The dataframe around `c6wCol`. -/
def c6wDf : DataFrame := ⟨[c6wCol]⟩

/-- Witness schema. -/
def c6wSchema : Schema := { numericColumns := ["v"], rawColumns := ["v"] }

/-- Witness: the strict-threshold equivalence evaluated at the 20-row
table. -/
theorem c6_iqr_strict_threshold_witness :
    ∃ out, detectAnomaliesKpis c6wDf c6wSchema = .ok out ∧
      ((∃ k, k ∈ out ∧ k.sqlFunction = "OUTLIER_DETECTION") ↔
        5 < iqrOutlierPct c6wDf "v") :=
  c6_iqr_strict_threshold c6wDf c6wSchema "v" c6wCol rfl rfl (by decide)
